import Mathlib

/-!
Verification of the API client/interceptor layer of the auto_geo frontend
(src/fronted/src/services/api/index.ts) and its list-consuming callers
(src/fronted/src/views/geo/Articles.vue, Monitor.vue).

JavaScript runtime values are modelled by the inductive type JsValue;
property access, optional chaining, truthiness and the logical-or operator
are modelled faithfully, with exceptions (TypeError on property access of a
nullish base) modelled by Except String.
-/

namespace AutoGeo

/-- Untyped JavaScript values, as far as the client layer inspects them. -/
inductive JsValue : Type where
  | undefined : JsValue
  | null : JsValue
  | bool : Bool → JsValue
  | num : Int → JsValue
  | str : String → JsValue
  | arr : List JsValue → JsValue
  | obj : List (String × JsValue) → JsValue
deriving Repr

/-- First-match lookup of a key in an object field list. -/
def lookupField : List (String × JsValue) → String → Option JsValue
  | [], _ => none
  | (k, v) :: rest, key => if k = key then some v else lookupField rest key

/-- A value is nullish when it is undefined or null. -/
def JsValue.nullish : JsValue → Bool
  | .undefined => true
  | .null => true
  | _ => false

def JsValue.isObj : JsValue → Bool
  | .obj _ => true
  | _ => false

/-- Models Array.isArray. -/
def JsValue.isArr : JsValue → Bool
  | .arr _ => true
  | _ => false

/-- JavaScript truthiness. -/
def truthy : JsValue → Bool
  | .undefined => false
  | .null => false
  | .bool b => b
  | .num n => n != 0
  | .str s => s != ""
  | .arr _ => true
  | .obj _ => true

/-- Property read on a value already known to be non-nullish: a missing key
and a read on a primitive yield undefined. -/
def jsDot (v : JsValue) (k : String) : JsValue :=
  match v with
  | .obj fields => (lookupField fields k).getD .undefined
  | _ => .undefined

/-- Plain property access v.k: throws a TypeError when the base is nullish. -/
def getProp (v : JsValue) (k : String) : Except String JsValue :=
  if v.nullish then .error "TypeError: cannot read properties of a nullish value"
  else .ok (jsDot v k)

/-- Optional chaining v?.k: yields undefined instead of throwing on a nullish
base. -/
def optProp (v : JsValue) (k : String) : Except String JsValue :=
  if v.nullish then .ok .undefined else getProp v k

/-- Pure counterpart of optProp. -/
def optDot (v : JsValue) (k : String) : JsValue :=
  if v.nullish then .undefined else jsDot v k

/-- Models the JavaScript logical-or a || b: the left operand when truthy,
otherwise the right operand. -/
def jsOr (a b : JsValue) : JsValue := if truthy a then a else b

/-- Strict equality test of a value against a number literal, as in
status === 500. -/
def isStrictNum (v : JsValue) (n : Int) : Bool :=
  match v with
  | .num m => m == n
  | _ => false

/-- The fixed fallback message literal of the error interceptor, the string
"请求失败" at src/fronted/src/services/api/index.ts line 44. -/
def fallbackMessage : JsValue := .str "请求失败"

/-- Message building of the error interceptor, line 44 of index.ts:
error.response?.data?.detail || error.response?.data?.message ||
error.message || "请求失败". -/
def buildMessage (error : JsValue) : Except String JsValue := do
  let response ← getProp error "response"
  let data ← optProp response "data"
  let detail ← optProp data "detail"
  let data2 ← optProp response "data"
  let msgField ← optProp data2 "message"
  let errMsg ← getProp error "message"
  pure (jsOr detail (jsOr msgField (jsOr errMsg fallbackMessage)))

/-- Observable effects and outcome of one run of the error interceptor
(index.ts lines 42 to 53). loggedError records the unconditional
console.error of line 43; diagnosticDump records the console.error payload
of line 48, emitted only for status 500; notifications records the
ElMessage.error calls in order; outcome is the returned promise state. -/
structure ErrorInterceptResult where
  loggedError : JsValue
  diagnosticDump : Option JsValue
  notifications : List JsValue
  outcome : Except JsValue JsValue
deriving Repr

/-- The error interceptor of index.ts lines 42 to 53, with its effects made
explicit. It logs the error, builds the message, dumps
error.response.data to the console when error.response?.status === 500,
emits one ElMessage.error with the built message, and returns
Promise.reject(error). -/
def errorInterceptor (error : JsValue) : Except String ErrorInterceptResult := do
  let message ← buildMessage error
  let response ← getProp error "response"
  let status ← optProp response "status"
  let dump ←
    if isStrictNum status 500 then do
      let response2 ← getProp error "response"
      let d ← getProp response2 "data"
      pure (some d)
    else
      pure (none : Option JsValue)
  pure ⟨error, dump, [message], Except.error error⟩

/-- The transport response envelope as the success interceptor sees it. -/
structure AxiosResponse where
  data : JsValue
  status : Int
  statusText : String
  headers : List (String × String)
deriving Repr

/-- The success interceptor of index.ts lines 39 to 41: return response.data. -/
def responseSuccessInterceptor (response : AxiosResponse) : JsValue :=
  response.data

/-- Specification-side helper: the first truthy value of the list, else the
fallback. -/
def firstTruthy : List JsValue → JsValue → JsValue
  | [], fallback => fallback
  | v :: rest, fallback => if truthy v then v else firstTruthy rest fallback

/-- An axios request descriptor, restricted to the fields this layer sets.
A field holding none is absent from the underlying JavaScript object. -/
structure RequestConfig where
  method : Option String
  url : Option String
  params : Option JsValue
  data : Option JsValue
  timeout : Option Int
deriving Repr

/-- The override field wins when present, as with a JavaScript object
spread placed after the base fields. -/
def overrideField {α : Type} : Option α → Option α → Option α
  | some x, _ => some x
  | none, base => base

/-- Object-spread merge of an override configuration over base fields, as in
the literal with method, url, params and then ...config. -/
def mergeConfig (base override : RequestConfig) : RequestConfig :=
  ⟨overrideField override.method base.method,
   overrideField override.url base.url,
   overrideField override.params base.params,
   overrideField override.data base.data,
   overrideField override.timeout base.timeout⟩

/-- The configuration argument when the caller omits it. -/
def emptyConfig : RequestConfig := ⟨none, none, none, none, none⟩

/-- The default timeout fixed at client construction, index.ts line 21. -/
def instanceDefaultTimeout : Int := 30000

/-- The timeout the shared client resolves for a request: the per-call
override when present, otherwise the construction-time default. -/
def effectiveTimeout (c : RequestConfig) : Int :=
  c.timeout.getD instanceDefaultTimeout

/-- Verb helper get of index.ts line 61: second positional argument is the
query-parameter bag. -/
def get (url : String) (params : Option JsValue) (config : RequestConfig) : RequestConfig :=
  mergeConfig ⟨some "GET", some url, params, none, none⟩ config

/-- Verb helper post of index.ts line 65: second positional argument is the
request body. -/
def post (url : String) (data : Option JsValue) (config : RequestConfig) : RequestConfig :=
  mergeConfig ⟨some "POST", some url, none, data, none⟩ config

/-- Verb helper put of index.ts line 69: second positional argument is the
request body. -/
def put (url : String) (data : Option JsValue) (config : RequestConfig) : RequestConfig :=
  mergeConfig ⟨some "PUT", some url, none, data, none⟩ config

/-- Verb helper del of index.ts line 73: second positional argument is the
query-parameter bag. -/
def del (url : String) (params : Option JsValue) (config : RequestConfig) : RequestConfig :=
  mergeConfig ⟨some "DELETE", some url, params, none, none⟩ config

namespace accountApi

def getList (params : Option JsValue) : RequestConfig :=
  get "/accounts" params emptyConfig

def startAuth (data : JsValue) : RequestConfig :=
  post "/accounts/auth/start" (some data) emptyConfig

def getAuthStatus (taskId : String) : RequestConfig :=
  get ("/accounts/auth/status/" ++ taskId) none emptyConfig

def update (id : Int) (data : JsValue) : RequestConfig :=
  put ("/accounts/" ++ toString id) (some data) emptyConfig

def delete (id : Int) : RequestConfig :=
  del ("/accounts/" ++ toString id) none emptyConfig

end accountApi

namespace geoKeywordApi

def getProjects : RequestConfig :=
  get "/keywords/projects" none emptyConfig

def getProject (id : Int) : RequestConfig :=
  get ("/keywords/projects/" ++ toString id) none emptyConfig

def getProjectKeywords (projectId : Int) : RequestConfig :=
  get ("/keywords/projects/" ++ toString projectId ++ "/keywords") none emptyConfig

def createProject (data : JsValue) : RequestConfig :=
  post "/keywords/projects" (some data) emptyConfig

def createKeyword (projectId : Int) (data : JsValue) : RequestConfig :=
  post ("/keywords/projects/" ++ toString projectId ++ "/keywords") (some data) emptyConfig

def distill (data : JsValue) : RequestConfig :=
  post "/keywords/distill" (some data) emptyConfig

def generateQuestions (data : JsValue) : RequestConfig :=
  post "/keywords/generate-questions" (some data) emptyConfig

end geoKeywordApi

namespace geoArticleApi

def getArticles (params : Option JsValue) : RequestConfig :=
  get "/geo/articles" params emptyConfig

/-- Article generation, index.ts lines 114 to 115: a per-call configuration
carrying only a 300000 ms timeout is passed to post. -/
def generate (data : JsValue) : RequestConfig :=
  post "/geo/generate" (some data) ⟨none, none, none, none, some 300000⟩

def checkQuality (id : Int) : RequestConfig :=
  post ("/geo/articles/" ++ toString id ++ "/check-quality") none emptyConfig

def checkIndex (id : Int) : RequestConfig :=
  post ("/geo/articles/" ++ toString id ++ "/check-index") none emptyConfig

def getDetail (id : Int) : RequestConfig :=
  get ("/geo/articles/" ++ toString id) none emptyConfig

def delete (id : Int) : RequestConfig :=
  del ("/geo/articles/" ++ toString id) none emptyConfig

end geoArticleApi

namespace indexCheckApi

def check (data : JsValue) : RequestConfig :=
  post "/index-check/check" (some data) emptyConfig

def getRecords (params : Option JsValue) : RequestConfig :=
  get ("/index-check/records") params emptyConfig

/-- getTrend with both arguments given, index.ts line 135: the params bag
with the days key is always sent. -/
def getTrend (keywordId : Int) (days : Int) : RequestConfig :=
  get ("/index-check/trend/" ++ toString keywordId)
    (some (.obj [("days", .num days)])) emptyConfig

/-- getTrend with the days argument omitted: the TypeScript default
parameter fills in 7. -/
def getTrendDefault (keywordId : Int) : RequestConfig :=
  getTrend keywordId 7

end indexCheckApi

namespace reportsApi

def getOverview : RequestConfig :=
  get "/reports/overview" none emptyConfig

/-- getTrends with the argument given, index.ts line 144: the params bag
with the days key is always sent. -/
def getTrends (days : Int) : RequestConfig :=
  get "/reports/trends" (some (.obj [("days", .num days)])) emptyConfig

/-- getTrends with the days argument omitted: the TypeScript default
parameter fills in 30. -/
def getTrendsDefault : RequestConfig :=
  getTrends 30

def getIndexTrend (params : Option JsValue) : RequestConfig :=
  get "/reports/trend/index" params emptyConfig

end reportsApi

namespace schedulerApi

def getJobs : RequestConfig :=
  get "/scheduler/jobs" none emptyConfig

def start : RequestConfig :=
  post "/scheduler/start" (some (.obj [])) emptyConfig

def stop : RequestConfig :=
  post "/scheduler/stop" (some (.obj [])) emptyConfig

end schedulerApi

/-- List normalization of loadArticles, Articles.vue lines 216 to 222:
if (Array.isArray(res)) use res; else if (res && Array.isArray(res.data))
use res.data; else use the empty array. The truthiness guard on res keeps
the plain res.data access from throwing, so the function is total. -/
def normalizeArticles (res : JsValue) : JsValue :=
  if res.isArr then res
  else if truthy res && (jsDot res "data").isArr then jsDot res "data"
  else .arr []

/-- List normalization of initChart, Monitor.vue line 107:
Array.isArray(res) ? res : (res?.data || []). The same pattern appears in
loadProjects and onProjectChange of both views. -/
def normalizeTrends (res : JsValue) : JsValue :=
  if res.isArr then res
  else jsOr (optDot res "data") (.arr [])

/-- One retained log line of the monitoring view. -/
structure LogEntry where
  time : JsValue
  level : JsValue
  message : JsValue
deriving Repr

/-- The entry pushed for a parsed WebSocket event, Monitor.vue line 137. -/
def newEntry (data : JsValue) : LogEntry :=
  ⟨jsOr (jsDot data "time") (.str ""),
   jsOr (jsDot data "level") (.str "INFO"),
   jsDot data "message"⟩

/-- The WebSocket onmessage handler of Monitor.vue lines 133 to 142, applied
to an already parsed event payload: when data and data.message are truthy,
push the new entry and, if the length then exceeds 50, shift off the oldest
entry. -/
def onLogMessage (logs : List LogEntry) (data : JsValue) : List LogEntry :=
  if truthy data && truthy (jsDot data "message") then
    let pushed := logs ++ [newEntry data]
    if pushed.length > 50 then pushed.tail else pushed
  else logs

/-- The message the interceptor builds, written as a first-truthy probe. -/
def builtMessage (error : JsValue) : JsValue :=
  firstTruthy
    [optDot (optDot (jsDot error "response") "data") "detail",
     optDot (optDot (jsDot error "response") "data") "message",
     jsDot error "message"]
    fallbackMessage

/-- The diagnostic dump the interceptor emits, as a pure function. -/
def interceptDump (error : JsValue) : Option JsValue :=
  if isStrictNum (optDot (jsDot error "response") "status") 500
  then some (jsDot (jsDot error "response") "data")
  else none

lemma exceptBind_ok {α β : Type} (a : α) (f : α → Except String β) :
    (Except.ok a : Except String α) >>= f = f a := rfl

lemma exceptMap_ok {α β : Type} (a : α) (f : α → β) :
    f <$> (Except.ok a : Except String α) = Except.ok (f a) := rfl

lemma getProp_ok (v : JsValue) (k : String) (h : v.nullish = false) :
    getProp v k = .ok (jsDot v k) := by
  simp [getProp, h]

lemma optProp_eq (v : JsValue) (k : String) :
    optProp v k = .ok (optDot v k) := by
  cases h : v.nullish <;> simp [optProp, optDot, getProp, h]

lemma buildMessage_eq (error : JsValue) (h : error.nullish = false) :
    buildMessage error = .ok (builtMessage error) := by
  simp [buildMessage, getProp_ok _ _ h, optProp_eq, builtMessage, firstTruthy, jsOr,
    exceptBind_ok]

lemma status500_not_nullish (v : JsValue)
    (h : isStrictNum (optDot v "status") 500 = true) : v.nullish = false := by
  cases v <;> simp_all [optDot, JsValue.nullish, isStrictNum, jsDot]

lemma errorInterceptor_eq (error : JsValue) (h : error.nullish = false) :
    errorInterceptor error =
      .ok ⟨error, interceptDump error, [builtMessage error], Except.error error⟩ := by
  by_cases h5 : isStrictNum (optDot (jsDot error "response") "status") 500 = true
  · have hnn := status500_not_nullish _ h5
    simp [errorInterceptor, buildMessage_eq error h, getProp_ok _ _ h, optProp_eq,
      interceptDump, h5, getProp_ok _ _ hnn, exceptBind_ok, exceptMap_ok]
  · simp only [Bool.not_eq_true] at h5
    simp [errorInterceptor, buildMessage_eq error h, getProp_ok _ _ h, optProp_eq,
      interceptDump, h5, exceptBind_ok, exceptMap_ok]

/-- Claim C1, counterexample: at the malformed error object with no fields
the interceptor surfaces the fallback literal "请求失败", which is not the
string "request failed" named by the claim, so the claim as stated fails. -/
theorem c1_fallback_literal_counterexample :
    buildMessage (JsValue.obj []) = .ok (.str "请求失败") ∧
    JsValue.str "请求失败" ≠ JsValue.str "request failed" := by
  refine ⟨rfl, fun hEq => ?_⟩
  injection hEq with hs
  exact absurd hs (by decide)

/-- Claim C1 (amended): for every failed call whose error object is not
nullish, the surfaced message is the first truthy value probed in strict
order from response data detail, then response data message, then the
transport error message, and otherwise the fixed fallback literal
"请求失败" (the Chinese rendering of "request failed"). -/
theorem c1_message_probe_order (error : JsValue) (h : error.nullish = false) :
    buildMessage error = .ok (firstTruthy
      [optDot (optDot (jsDot error "response") "data") "detail",
       optDot (optDot (jsDot error "response") "data") "message",
       jsDot error "message"] fallbackMessage) :=
  buildMessage_eq error h

/-- Witness for c1_message_probe_order at a concrete error object. -/
theorem c1_message_probe_order_witness :
    (JsValue.obj [("message", JsValue.str "boom")]).nullish = false ∧
    buildMessage (JsValue.obj [("message", JsValue.str "boom")]) = .ok (firstTruthy
      [optDot (optDot (jsDot (JsValue.obj [("message", JsValue.str "boom")]) "response") "data") "detail",
       optDot (optDot (jsDot (JsValue.obj [("message", JsValue.str "boom")]) "response") "data") "message",
       jsDot (JsValue.obj [("message", JsValue.str "boom")]) "message"] fallbackMessage) :=
  ⟨rfl, c1_message_probe_order (JsValue.obj [("message", JsValue.str "boom")]) rfl⟩

/-- Claim C2: for every failed call the interceptor emits exactly one
notification, carrying the built message, and re-rejects with the original
error object unchanged, so the error is never swallowed. -/
theorem c2_single_notification_rereject (error : JsValue) (h : error.nullish = false) :
    ∃ m r, buildMessage error = .ok m ∧ errorInterceptor error = .ok r ∧
      r.notifications = [m] ∧ r.outcome = Except.error error :=
  ⟨builtMessage error,
   ⟨error, interceptDump error, [builtMessage error], Except.error error⟩,
   buildMessage_eq error h, errorInterceptor_eq error h, rfl, rfl⟩

/-- Witness for c2_single_notification_rereject at a concrete error. -/
theorem c2_single_notification_rereject_witness :
    ∃ m r, buildMessage (JsValue.obj [("response",
        JsValue.obj [("status", JsValue.num 404),
          ("data", JsValue.obj [("detail", JsValue.str "not found")])])]) = .ok m ∧
      errorInterceptor (JsValue.obj [("response",
        JsValue.obj [("status", JsValue.num 404),
          ("data", JsValue.obj [("detail", JsValue.str "not found")])])]) = .ok r ∧
      r.notifications = [m] ∧
      r.outcome = Except.error (JsValue.obj [("response",
        JsValue.obj [("status", JsValue.num 404),
          ("data", JsValue.obj [("detail", JsValue.str "not found")])])]) :=
  c2_single_notification_rereject _ rfl

/-- Claim C3: the success interceptor returns exactly the body payload of
the transport response, discarding status and headers, and passes the body
through verbatim: a body that itself still carries a data wrapper is
returned wrapped, not unwrapped a second time. -/
theorem c3_success_returns_body_verbatim :
    (∀ r : AxiosResponse, responseSuccessInterceptor r = r.data) ∧
    (∀ (v : JsValue) (st : Int) (sx : String) (hd : List (String × String)),
      responseSuccessInterceptor ⟨JsValue.obj [("data", v)], st, sx, hd⟩ =
        JsValue.obj [("data", v)]) :=
  ⟨fun _ => rfl, fun _ _ _ _ => rfl⟩

/-- Claim C4: for every failed call with a non-nullish error object, when
the response status is strictly 500 the interceptor records the raw
response data on the diagnostic channel in addition to the single
notification, and for any other status no such dump occurs. -/
theorem c4_diagnostic_dump_iff_500 (error : JsValue) (h : error.nullish = false) :
    ∃ r, errorInterceptor error = .ok r ∧
      (isStrictNum (optDot (jsDot error "response") "status") 500 = true →
        r.diagnosticDump = some (jsDot (jsDot error "response") "data") ∧
        r.notifications.length = 1) ∧
      (isStrictNum (optDot (jsDot error "response") "status") 500 = false →
        r.diagnosticDump = none) := by
  refine ⟨_, errorInterceptor_eq error h, fun h5 => ⟨?_, rfl⟩, fun h5 => ?_⟩
  · simp [interceptDump, h5]
  · simp [interceptDump, h5]

/-- Witness for c4_diagnostic_dump_iff_500 at a concrete 500 error. -/
theorem c4_diagnostic_dump_iff_500_witness :
    ∃ r, errorInterceptor (JsValue.obj [("response",
        JsValue.obj [("status", JsValue.num 500),
          ("data", JsValue.str "stacktrace")])]) = .ok r ∧
      (isStrictNum (optDot (jsDot (JsValue.obj [("response",
          JsValue.obj [("status", JsValue.num 500),
            ("data", JsValue.str "stacktrace")])]) "response") "status") 500 = true →
        r.diagnosticDump = some (jsDot (jsDot (JsValue.obj [("response",
          JsValue.obj [("status", JsValue.num 500),
            ("data", JsValue.str "stacktrace")])]) "response") "data") ∧
        r.notifications.length = 1) ∧
      (isStrictNum (optDot (jsDot (JsValue.obj [("response",
          JsValue.obj [("status", JsValue.num 500),
            ("data", JsValue.str "stacktrace")])]) "response") "status") 500 = false →
        r.diagnosticDump = none) :=
  c4_diagnostic_dump_iff_500 _ rfl

/-- Claim C5: for every non-nullish error object, however malformed, the
interceptor never throws, and when none of the three probed fields is
present as a truthy value the built message is the fixed fallback string. -/
theorem c5_never_throws_fallback (error : JsValue) (h : error.nullish = false) :
    (∃ r, errorInterceptor error = .ok r) ∧
    (truthy (optDot (optDot (jsDot error "response") "data") "detail") = false →
     truthy (optDot (optDot (jsDot error "response") "data") "message") = false →
     truthy (jsDot error "message") = false →
     buildMessage error = .ok fallbackMessage) := by
  refine ⟨⟨_, errorInterceptor_eq error h⟩, fun h1 h2 h3 => ?_⟩
  rw [buildMessage_eq error h]
  simp [builtMessage, firstTruthy, h1, h2, h3]

/-- Witness for c5_never_throws_fallback at a malformed concrete error
whose response is a bare string, lacking data and all message fields. -/
theorem c5_never_throws_fallback_witness :
    ((∃ r, errorInterceptor (JsValue.obj [("response", JsValue.str "weird")]) = .ok r) ∧
    (truthy (optDot (optDot (jsDot (JsValue.obj [("response", JsValue.str "weird")]) "response") "data") "detail") = false →
     truthy (optDot (optDot (jsDot (JsValue.obj [("response", JsValue.str "weird")]) "response") "data") "message") = false →
     truthy (jsDot (JsValue.obj [("response", JsValue.str "weird")]) "message") = false →
     buildMessage (JsValue.obj [("response", JsValue.str "weird")]) = .ok fallbackMessage)) :=
  c5_never_throws_fallback _ rfl

/-- Claim C6: with the configuration argument omitted, the four verb
helpers build descriptors that agree on everything except the HTTP method
and the placement of the second positional argument: get and del put it in
params with no body, post and put put it in the body with no params; in
particular del never carries its second argument as a body. -/
theorem c6_verb_helpers_shape (url : String) (payload : Option JsValue) :
    get url payload emptyConfig = ⟨some "GET", some url, payload, none, none⟩ ∧
    del url payload emptyConfig = ⟨some "DELETE", some url, payload, none, none⟩ ∧
    post url payload emptyConfig = ⟨some "POST", some url, none, payload, none⟩ ∧
    put url payload emptyConfig = ⟨some "PUT", some url, none, payload, none⟩ :=
  ⟨rfl, rfl, rfl, rfl⟩

/-- Claim C7: the article-generation request always carries a 300000 ms
per-call timeout, whatever default it would otherwise fall back to, while
the client default stays 30000 ms and every other facade operation builds
its request with no timeout override. -/
theorem c7_generate_timeout_isolated (gd : JsValue) :
    (geoArticleApi.generate gd).timeout = some 300000 ∧
    (∀ dflt : Int, (geoArticleApi.generate gd).timeout.getD dflt = 300000) ∧
    effectiveTimeout (geoArticleApi.generate gd) = 300000 ∧
    instanceDefaultTimeout = 30000 ∧
    (∀ p, (accountApi.getList p).timeout = none) ∧
    (∀ d, (accountApi.startAuth d).timeout = none) ∧
    (∀ t, (accountApi.getAuthStatus t).timeout = none) ∧
    (∀ i d, (accountApi.update i d).timeout = none) ∧
    (∀ i, (accountApi.delete i).timeout = none) ∧
    geoKeywordApi.getProjects.timeout = none ∧
    (∀ i, (geoKeywordApi.getProject i).timeout = none) ∧
    (∀ i, (geoKeywordApi.getProjectKeywords i).timeout = none) ∧
    (∀ d, (geoKeywordApi.createProject d).timeout = none) ∧
    (∀ i d, (geoKeywordApi.createKeyword i d).timeout = none) ∧
    (∀ d, (geoKeywordApi.distill d).timeout = none) ∧
    (∀ d, (geoKeywordApi.generateQuestions d).timeout = none) ∧
    (∀ p, (geoArticleApi.getArticles p).timeout = none) ∧
    (∀ i, (geoArticleApi.checkQuality i).timeout = none) ∧
    (∀ i, (geoArticleApi.checkIndex i).timeout = none) ∧
    (∀ i, (geoArticleApi.getDetail i).timeout = none) ∧
    (∀ i, (geoArticleApi.delete i).timeout = none) ∧
    (∀ d, (indexCheckApi.check d).timeout = none) ∧
    (∀ p, (indexCheckApi.getRecords p).timeout = none) ∧
    (∀ i d, (indexCheckApi.getTrend i d).timeout = none) ∧
    reportsApi.getOverview.timeout = none ∧
    (∀ d, (reportsApi.getTrends d).timeout = none) ∧
    (∀ p, (reportsApi.getIndexTrend p).timeout = none) ∧
    schedulerApi.getJobs.timeout = none ∧
    schedulerApi.start.timeout = none ∧
    schedulerApi.stop.timeout = none :=
  ⟨rfl, fun _ => rfl, rfl, rfl,
   fun _ => rfl, fun _ => rfl, fun _ => rfl, fun _ _ => rfl, fun _ => rfl,
   rfl, fun _ => rfl, fun _ => rfl, fun _ => rfl, fun _ _ => rfl, fun _ => rfl, fun _ => rfl,
   fun _ => rfl, fun _ => rfl, fun _ => rfl, fun _ => rfl, fun _ => rfl,
   fun _ => rfl, fun _ => rfl, fun _ _ => rfl,
   rfl, fun _ => rfl, fun _ => rfl,
   rfl, rfl, rfl⟩

/-- Claim C8, counterexample: omitting the day-window argument and passing
the explicit facade default build the same request descriptor for both
trend facades, so the two wire requests are identical, not different. -/
theorem c8_omission_equals_default_counterexample :
    indexCheckApi.getTrendDefault 5 = indexCheckApi.getTrend 5 7 ∧
    reportsApi.getTrendsDefault = reportsApi.getTrends 30 :=
  ⟨rfl, rfl⟩

/-- Claim C8 (amended): both trend facades always send the days parameter;
omitting the argument sends the facade default (7 for getTrend, 30 for
getTrends), producing exactly the same wire request as passing the default
explicitly, so callers cannot distinguish omission from explicit default. -/
theorem c8_days_always_sent (keywordId days : Int) :
    (indexCheckApi.getTrend keywordId days).params =
      some (.obj [("days", .num days)]) ∧
    indexCheckApi.getTrendDefault keywordId = indexCheckApi.getTrend keywordId 7 ∧
    (reportsApi.getTrends days).params = some (.obj [("days", .num days)]) ∧
    reportsApi.getTrendsDefault = reportsApi.getTrends 30 :=
  ⟨rfl, rfl, rfl, rfl⟩

/-- Claim C9, counterexample: the Monitor view normalization applied to an
object whose data field holds the number 5 yields that number, which is not
a sequence and not the empty sequence, so the three-case normalization the
claim states for every caller fails there. -/
theorem c9_nonarray_data_counterexample :
    normalizeTrends (JsValue.obj [("data", JsValue.num 5)]) = JsValue.num 5 ∧
    (JsValue.num 5).isArr = false ∧
    JsValue.num 5 ≠ JsValue.arr [] :=
  ⟨rfl, rfl, fun h => JsValue.noConfusion h⟩

/-- Claim C9 (amended): the Articles list loader normalizes by exactly the
three stated cases (a sequence is kept, an object with a sequence in its
data field yields that inner sequence, anything else yields the empty
sequence), while the Monitor view consumers use a two-case variant that
keeps a sequence as-is but otherwise returns the data field whenever it is
truthy, even when it is not a sequence, and yields the empty sequence only
when the data field is falsy or absent. -/
theorem c9_list_normalization_cases (res : JsValue) :
    normalizeArticles res =
      (if res.isArr then res
       else if (jsDot res "data").isArr then jsDot res "data"
       else JsValue.arr []) ∧
    normalizeTrends res =
      (if res.isArr then res
       else if truthy (optDot res "data") then optDot res "data"
       else JsValue.arr []) := by
  constructor
  · cases res <;> simp [normalizeArticles, jsDot, truthy, JsValue.isArr]
  · rfl

/-- Claim C10: the WebSocket log handler keeps at most 50 retained entries:
from any state within the bound, processing an event stays within the
bound, and when the list already holds 50 entries and a new entry is
pushed, the oldest entry is shifted off. -/
theorem c10_log_cap (logs : List LogEntry) (data : JsValue)
    (h : logs.length ≤ 50) :
    (onLogMessage logs data).length ≤ 50 ∧
    (logs.length = 50 → truthy data = true → truthy (jsDot data "message") = true →
      onLogMessage logs data = (logs ++ [newEntry data]).tail) := by
  constructor
  · by_cases hg : (truthy data && truthy (jsDot data "message")) = true
    · by_cases hl : (logs ++ [newEntry data]).length > 50
      · have he : onLogMessage logs data = (logs ++ [newEntry data]).tail := by
          simp only [onLogMessage, hg, if_true]
          rw [if_pos hl]
        rw [he, List.length_tail]
        simp at hl ⊢
        omega
      · have he : onLogMessage logs data = logs ++ [newEntry data] := by
          simp only [onLogMessage, hg, if_true]
          rw [if_neg hl]
        rw [he]
        simp at hl ⊢
        omega
    · simp only [onLogMessage, hg, if_false]
      exact h
  · intro h50 ht hm
    have hlen : (logs ++ [newEntry data]).length = 51 := by simp [h50]
    simp [onLogMessage, ht, hm, hlen]

/-- Witness for c10_log_cap at the empty log list and a concrete event. -/
theorem c10_log_cap_witness :
    ([] : List LogEntry).length ≤ 50 ∧
    ((onLogMessage [] (JsValue.obj [("message", JsValue.str "hi")])).length ≤ 50 ∧
     (([] : List LogEntry).length = 50 →
      truthy (JsValue.obj [("message", JsValue.str "hi")]) = true →
      truthy (jsDot (JsValue.obj [("message", JsValue.str "hi")]) "message") = true →
      onLogMessage [] (JsValue.obj [("message", JsValue.str "hi")]) =
        (([] : List LogEntry) ++
          [newEntry (JsValue.obj [("message", JsValue.str "hi")])]).tail)) :=
  ⟨by decide, c10_log_cap [] (JsValue.obj [("message", JsValue.str "hi")]) (by decide)⟩

end AutoGeo
